import Mathlib

/-!
Verification of the boron isotope partitioning model in this repository
(`inorg_b`: `helpers.py` and `model.py`).

Real-number embedding: Python/numpy float arithmetic is modelled over `ℝ`
(with Lean's total division, `x / 0 = 0`); `x ** (1/2)` on a nonnegative
argument is modelled by `Real.sqrt`, and `10 ** x` by real exponentiation.
Arrays are modelled as functions `Fin n → ℝ` and numpy reductions as sums
over `Fin n`.

A second, non-finite-aware embedding (`FVal := Option ℝ`, suffix `F`) is
used for the error-handling claims: `some x` is a finite float, `none`
abstracts any non-finite float (NaN or ±Inf).  Division by zero produces
`none` and every arithmetic operation propagates `none`, mirroring how
numpy silently produces and propagates Inf/NaN instead of raising.
-/

noncomputable section

open scoped Classical

namespace InorgB

/-- NIST951 boron isotope reference ratio, the default `SRM_ratio`
throughout `helpers.py`. -/
def NIST951 : ℝ := 4.04367

/-- `sol_B_iso` (helpers.py lines 11-25): linearised mass-balance split of a
bulk boron delta into the BO4 and BO3 species deltas. Returns
`(d11BO4, d11BO3)`. -/
def sol_B_iso (BT BO4 d11B_total alpha : ℝ) : ℝ × ℝ :=
  let eps := 1000 * (alpha - 1)
  let BO3 := BT - BO4
  let d11BO4 := (d11B_total * BT - eps * BO3) / (BO4 + alpha * BO3)
  let d11BO3 := d11BO4 + eps
  (d11BO4, d11BO3)

/-- `d11_2_A11` (helpers.py lines 49-55): delta to fractional abundance. -/
def d11_2_A11 (d11 SRM_ratio : ℝ) : ℝ :=
  SRM_ratio * (d11 / 1000 + 1) / (SRM_ratio * (d11 / 1000 + 1) + 1)

/-- `A11_2_d11` (helpers.py lines 57-63): fractional abundance to delta. -/
def A11_2_d11 (A11 SRM_ratio : ℝ) : ℝ :=
  ((A11 / (1 - A11)) / SRM_ratio - 1) * 1000

/-- `A11_2_R11` (helpers.py lines 65-69): fractional abundance to ratio. -/
def A11_2_R11 (A11 : ℝ) : ℝ :=
  A11 / (1 - A11)

/-- `d11_2_R11` (helpers.py lines 71-77): delta to isotope ratio. -/
def d11_2_R11 (d11 SRM_ratio : ℝ) : ℝ :=
  (d11 / 1000 + 1) * SRM_ratio

/-- `R11_2_d11` (helpers.py lines 80-86): isotope ratio to delta. -/
def R11_2_d11 (R11 SRM_ratio : ℝ) : ℝ :=
  (R11 / SRM_ratio - 1) * 1000

/-- `R11_2_A11` (helpers.py lines 89-93): isotope ratio to abundance. -/
def R11_2_A11 (R11 : ℝ) : ℝ :=
  R11 / (1 + R11)

/-- `Hval = 10**-pH` (helpers.py line 37). -/
def Hval_of (pH : ℝ) : ℝ := (10 : ℝ) ^ (-pH)

/-- `Kbval = BO4 * Hval / (BT - BO4)` (helpers.py line 38). -/
def Kbval_of (pH BO4 BT : ℝ) : ℝ := BO4 * Hval_of pH / (BT - BO4)

/-- The quadratic-root expression for `RB4` inside `sol_B_iso_Rae2018`
(helpers.py lines 39-42); `(...)**(1/2)` is modelled by `Real.sqrt`. -/
def RB4_Rae2018 (pH BO4 BT alpha d11BT SRM_ratio : ℝ) : ℝ :=
  let R_BT := d11_2_R11 d11BT SRM_ratio
  let Hval := Hval_of pH
  let Kbval := Kbval_of pH BO4 BT
  (Real.sqrt (Hval^2*R_BT^2 + 2*Hval^2*R_BT*alpha + Hval^2*alpha^2 +
      2*Hval*Kbval*R_BT^2*alpha - 2*Hval*Kbval*R_BT*alpha^2 +
      8*Hval*Kbval*R_BT*alpha - 2*Hval*Kbval*R_BT + 2*Hval*Kbval*alpha +
      Kbval^2*R_BT^2*alpha^2 + 2*Kbval^2*R_BT*alpha + Kbval^2) -
    Hval*alpha - Kbval + Hval*R_BT + Kbval*R_BT*alpha) /
  (2*alpha*(Hval + Kbval))

/-- `sol_B_iso_Rae2018` (helpers.py lines 27-46): exact mass-balance
solution for the per-species deltas.  Returns `(d11BO4, d11BO3)`. -/
def sol_B_iso_Rae2018 (pH BO4 BT alpha d11BT SRM_ratio : ℝ) : ℝ × ℝ :=
  let RB4 := RB4_Rae2018 pH BO4 BT alpha d11BT SRM_ratio
  let RB3 := RB4 * alpha
  (R11_2_d11 RB4 SRM_ratio, R11_2_d11 RB3 SRM_ratio)

/-- `rS_calc` (model.py lines 4-10). -/
def rS_calc (Rb Rp Kf rL Kb : ℝ) : ℝ :=
  let Rf := Rp + Rb
  (Kf * rL * Rf) / (Rb * Kb + Rp)

/-- `predfn` (model.py lines 12-35), pointwise form: dual-species forward
model returning `(KB, DdBcal)` for one sample. -/
def predfn (Kb3 Kf3 Kb4 Kf4 logRb Rp rL3 rL4 B_DIC ABO3 ABO4 dBO4 : ℝ) :
    ℝ × ℝ :=
  let Rb := (10 : ℝ) ^ logRb
  let rS4 := rS_calc Rb Rp Kf4 rL4 Kb4
  let rS3 := rS_calc Rb Rp Kf3 rL3 Kb3
  let rSB := rS3 + rS4
  let KB := rSB / B_DIC
  let ABcal := (ABO3 * rS3 + ABO4 * rS4) / rSB
  let DdBcal := A11_2_d11 ABcal NIST951 - dBO4
  (KB, DdBcal)

/-- `predfn_BO4fractionated` (model.py lines 103-126), pointwise form. -/
def predfn_BO4fractionated
    (Kb3 Kf3 Kb4 Kf4 logRb eps4 Rp rL3 rL4 B_DIC dBO3 dBO4 : ℝ) : ℝ × ℝ :=
  let Rb := (10 : ℝ) ^ logRb
  let rS4 := rS_calc Rb Rp Kf4 rL4 Kb4
  let rS3 := rS_calc Rb Rp Kf3 rL3 Kb3
  let rSB := rS3 + rS4
  let KB := rSB / B_DIC
  let ABcal := (d11_2_A11 dBO3 NIST951 * rS3 +
                d11_2_A11 (dBO4 + eps4) NIST951 * rS4) / rSB
  let DdBcal := A11_2_d11 ABcal NIST951 - dBO4
  (KB, DdBcal)

/-- `predfn_fractionated` (model.py lines 148-171), pointwise form. -/
def predfn_fractionated
    (Kb3 Kf3 Kb4 Kf4 logRb eps3 eps4 Rp rL3 rL4 B_DIC dBO3 dBO4 : ℝ) :
    ℝ × ℝ :=
  let Rb := (10 : ℝ) ^ logRb
  let rS4 := rS_calc Rb Rp Kf4 rL4 Kb4
  let rS3 := rS_calc Rb Rp Kf3 rL3 Kb3
  let rSB := rS3 + rS4
  let KB := rSB / B_DIC
  let ABcal := (d11_2_A11 (dBO3 + eps3) NIST951 * rS3 +
                d11_2_A11 (dBO4 + eps4) NIST951 * rS4) / rSB
  let DdBcal := A11_2_d11 ABcal NIST951 - dBO4
  (KB, DdBcal)

/-- `np.ptp`: max minus min over a nonempty array. -/
def ptp {n : ℕ} [NeZero n] (x : Fin n → ℝ) : ℝ :=
  Finset.univ.sup' Finset.univ_nonempty x -
  Finset.univ.inf' Finset.univ_nonempty x

/-- `fitfn` (model.py lines 37-54): weighted sum-of-squares cost of the
dual-species model over `n` samples.  `LambdaB_bias = none` models the
Python default `LambdaB_bias=None`, where `np.ptp(EpsilonB)/np.ptp(LambdaB)`
is used. -/
def fitfn {n : ℕ} [NeZero n] (Kb3 Kf3 Kb4 Kf4 logRb : ℝ)
    (Rp rL3 rL4 B_DIC ABO3 ABO4 dBO4 LambdaB EpsilonB : Fin n → ℝ)
    (LambdaB_err EpsilonB_err : Fin n → ℝ) (LambdaB_bias : Option ℝ) : ℝ :=
  let bias := LambdaB_bias.getD (ptp EpsilonB / ptp LambdaB)
  let pred := fun i => predfn Kb3 Kf3 Kb4 Kf4 logRb (Rp i) (rL3 i) (rL4 i)
    (B_DIC i) (ABO3 i) (ABO4 i) (dBO4 i)
  let Lam_err := bias *
    ∑ i, ((pred i).1 - LambdaB i)^2 / (LambdaB_err i)^2
  let Eps_err := ∑ i, ((pred i).2 - EpsilonB i)^2 / (EpsilonB_err i)^2
  Lam_err / 2 + Eps_err / 2

/-- `np.mean` of an array. -/
def arrMean {n : ℕ} (x : Fin n → ℝ) : ℝ := (∑ i, x i) / n

/-- The error normalisation of `extract_model_vars` (helpers.py lines
134-136): `(err / err.mean())**0.5`, elementwise; `**0.5` on the
nonnegative quotient is modelled by `Real.sqrt`. -/
def err_mean_norm {n : ℕ} (x : Fin n → ℝ) : Fin n → ℝ :=
  fun i => Real.sqrt (x i / arrMean x)

/-! ### C2: closed form of `rS_calc` -/

/-- C2: `rS_calc Rb Rp Kf rL Kb` equals the closed form
`Kf*rL*(Rp+Rb) / (Rb*Kb + Rp)` (here unconditionally, so in particular
whenever `Rb*Kb + Rp ≠ 0`), and at the concrete scenario
`(Rb, Rp, Kf, rL, Kb) = (1, 1e-6, 2, 0.01, 0.5)` it equals the value of
that closed-form expression at those arguments. -/
theorem rS_calc_closed_form :
    (∀ Rb Rp Kf rL Kb : ℝ,
      rS_calc Rb Rp Kf rL Kb = Kf * rL * (Rp + Rb) / (Rb * Kb + Rp)) ∧
    rS_calc 1 (1/1000000) 2 (1/100) (1/2) =
      2 * (1/100) * (1/1000000 + 1) / (1 * (1/2) + 1/1000000) := by
  refine ⟨fun Rb Rp Kf rL Kb => rfl, rfl⟩

/-! ### C8: the gap `d11BO3 - d11BO4` in the linearised split -/

/-- C8: for every input, the pair returned by `sol_B_iso` satisfies
`d11BO3 - d11BO4 = 1000*(alpha - 1)` exactly; hence for `alpha > 1` the
gap is positive, and the gap is strictly increasing in `alpha`. -/
theorem sol_B_iso_gap (BT BO4 dT alpha : ℝ) :
    (sol_B_iso BT BO4 dT alpha).2 - (sol_B_iso BT BO4 dT alpha).1 =
      1000 * (alpha - 1) ∧
    (1 < alpha →
      0 < (sol_B_iso BT BO4 dT alpha).2 - (sol_B_iso BT BO4 dT alpha).1) ∧
    (∀ alpha2, alpha < alpha2 →
      (sol_B_iso BT BO4 dT alpha).2 - (sol_B_iso BT BO4 dT alpha).1 <
      (sol_B_iso BT BO4 dT alpha2).2 - (sol_B_iso BT BO4 dT alpha2).1) := by
  have key : ∀ a : ℝ, (sol_B_iso BT BO4 dT a).2 - (sol_B_iso BT BO4 dT a).1 =
      1000 * (a - 1) := by
    intro a
    simp only [sol_B_iso]
    ring
  refine ⟨key alpha, fun h => ?_, fun alpha2 h => ?_⟩
  · rw [key alpha]; linarith
  · rw [key alpha, key alpha2]; linarith

/-- Witness for C8 at `(BT, BO4, dT, alpha, alpha2) = (2, 1, 10, 2, 3)`. -/
theorem sol_B_iso_gap_witness :
    (sol_B_iso 2 1 10 2).2 - (sol_B_iso 2 1 10 2).1 = 1000 * (2 - 1) ∧
    0 < (sol_B_iso 2 1 10 2).2 - (sol_B_iso 2 1 10 2).1 ∧
    (sol_B_iso 2 1 10 2).2 - (sol_B_iso 2 1 10 2).1 <
      (sol_B_iso 2 1 10 3).2 - (sol_B_iso 2 1 10 3).1 := by
  obtain ⟨h1, h2, h3⟩ := sol_B_iso_gap 2 1 10 2
  exact ⟨h1, h2 (by norm_num), h3 3 (by norm_num)⟩

/-! ### C1: mass balance of the linearised split `sol_B_iso` -/

/-- C1 counterexample: at `(BT, BO4, dT, alpha) = (2, 1, 10, 2)` the claimed
delta mass balance `dT * BT = d11BO4 * BO4 + d11BO3 * (BT - BO4)` fails for
the pair returned by `sol_B_iso` (the code divides by `BO4 + alpha*BO3`,
not by `BT`, so the balance only holds in delta units when `alpha = 1` or
`BO4 = BT`). -/
theorem sol_B_iso_delta_balance_cex :
    ¬ ((10 : ℝ) * 2 =
        (sol_B_iso 2 1 10 2).1 * 1 + (sol_B_iso 2 1 10 2).2 * (2 - 1)) := by
  simp only [sol_B_iso]
  norm_num

/-- C1 amended: for every `total_B`, `BO4`, `delta_total` and `alpha` with
`BO4 + alpha*(total_B - BO4) ≠ 0`, the pair returned by `sol_B_iso`
satisfies `delta_BO3 = delta_BO4 + 1000*(alpha-1)` exactly, and the exact
balance it satisfies is the linearised-ratio mass balance
`(delta_total/1000 + 1)*total_B
  = (delta_BO4/1000 + 1)*BO4 + alpha*(delta_BO4/1000 + 1)*(total_B - BO4)`
(the claimed plain delta balance holds only when `alpha = 1` or
`BO4 = total_B`). -/
theorem sol_B_iso_linearized_balance (BT BO4 dT alpha : ℝ)
    (h : BO4 + alpha * (BT - BO4) ≠ 0) :
    (sol_B_iso BT BO4 dT alpha).2 =
      (sol_B_iso BT BO4 dT alpha).1 + 1000 * (alpha - 1) ∧
    (dT / 1000 + 1) * BT =
      ((sol_B_iso BT BO4 dT alpha).1 / 1000 + 1) * BO4 +
      alpha * ((sol_B_iso BT BO4 dT alpha).1 / 1000 + 1) * (BT - BO4) := by
  simp only [sol_B_iso]
  constructor
  · ring_nf
  · field_simp
    ring_nf

/-- Witness for C1 (amended) at `(BT, BO4, dT, alpha) = (2, 1, 10, 2)`. -/
theorem sol_B_iso_linearized_balance_witness :
    (sol_B_iso 2 1 10 2).2 = (sol_B_iso 2 1 10 2).1 + 1000 * (2 - 1) ∧
    ((10 : ℝ) / 1000 + 1) * 2 =
      ((sol_B_iso 2 1 10 2).1 / 1000 + 1) * 1 +
      2 * ((sol_B_iso 2 1 10 2).1 / 1000 + 1) * (2 - 1) :=
  sol_B_iso_linearized_balance 2 1 10 2 (by norm_num)

/-! ### C10: the fractionated predictors at zero offsets refine `predfn` -/

/-- C10: with `eps3 = eps4 = 0`, `predfn_fractionated` (and with `eps4 = 0`,
`predfn_BO4fractionated`) returns exactly the same `(KB, EpsilonB)` pair as
`predfn` called with `ABO3 = d11_2_A11 dBO3`, `ABO4 = d11_2_A11 dBO4` and
the same remaining arguments. -/
theorem predfn_variants_agree
    (Kb3 Kf3 Kb4 Kf4 logRb Rp rL3 rL4 B_DIC dBO3 dBO4 : ℝ) :
    predfn_fractionated Kb3 Kf3 Kb4 Kf4 logRb 0 0 Rp rL3 rL4 B_DIC dBO3 dBO4
      = predfn Kb3 Kf3 Kb4 Kf4 logRb Rp rL3 rL4 B_DIC
          (d11_2_A11 dBO3 NIST951) (d11_2_A11 dBO4 NIST951) dBO4 ∧
    predfn_BO4fractionated Kb3 Kf3 Kb4 Kf4 logRb 0 Rp rL3 rL4 B_DIC dBO3 dBO4
      = predfn Kb3 Kf3 Kb4 Kf4 logRb Rp rL3 rL4 B_DIC
          (d11_2_A11 dBO3 NIST951) (d11_2_A11 dBO4 NIST951) dBO4 := by
  constructor <;>
    simp only [predfn_fractionated, predfn_BO4fractionated, predfn, add_zero]

/-! ### C5: round trips between the isotope representations -/

/-- C5: for every `delta` and reference ratio `R_ref > 0` with
`R_ref*(delta/1000 + 1) ≠ -1`, converting delta to abundance and back
recovers `delta` exactly; and for every ratio `R ≥ 0`, the abundance
`R11_2_A11 R` lies in `[0, 1)` and converting it back with `A11_2_R11`
recovers `R` exactly. -/
theorem iso_roundtrip (delta R_ref R : ℝ) (h1 : 0 < R_ref)
    (h2 : R_ref * (delta / 1000 + 1) ≠ -1) (h3 : 0 ≤ R) :
    A11_2_d11 (d11_2_A11 delta R_ref) R_ref = delta ∧
    0 ≤ R11_2_A11 R ∧ R11_2_A11 R < 1 ∧ A11_2_R11 (R11_2_A11 R) = R := by
  have hS : R_ref ≠ 0 := ne_of_gt h1
  have hden : R_ref * (delta / 1000 + 1) + 1 ≠ 0 := by
    intro hc; exact h2 (by linarith)
  have hR1 : (0 : ℝ) < 1 + R := by linarith
  refine ⟨?_, ?_, ?_, ?_⟩
  · simp only [A11_2_d11, d11_2_A11]
    have hden' : R_ref * (delta + 1000) + 1000 ≠ 0 := by
      intro hc
      apply hden
      linarith
    rw [show 1 - R_ref * (delta / 1000 + 1) / (R_ref * (delta / 1000 + 1) + 1)
        = 1 / (R_ref * (delta / 1000 + 1) + 1) by field_simp]
    rw [show R_ref * (delta / 1000 + 1) / (R_ref * (delta / 1000 + 1) + 1) /
        (1 / (R_ref * (delta / 1000 + 1) + 1))
        = R_ref * (delta / 1000 + 1) by field_simp]
    rw [mul_div_cancel_left₀ _ hS]
    ring
  · exact div_nonneg h3 hR1.le
  · exact (div_lt_one hR1).mpr (by linarith)
  · simp only [A11_2_R11, R11_2_A11]
    rw [show 1 - R / (1 + R) = 1 / (1 + R) by field_simp]
    field_simp

/-- Witness for C5 at `(delta, R_ref, R) = (10, 4, 2)`. -/
theorem iso_roundtrip_witness :
    A11_2_d11 (d11_2_A11 10 4) 4 = 10 ∧
    0 ≤ R11_2_A11 2 ∧ R11_2_A11 2 < 1 ∧ A11_2_R11 (R11_2_A11 2) = 2 :=
  iso_roundtrip 10 4 2 (by norm_num) (by norm_num) (by norm_num)

/-! ### C9: the mean-normalised error arrays of `extract_model_vars` -/

/-- C9 counterexample: for the one-element error array `[4]`, the code's
normalised value is `((4/mean)**0.5) = 1`, not the claimed
`4 / mean**0.5 = 2`. -/
theorem err_mean_norm_cex :
    ¬ (err_mean_norm (fun _ : Fin 1 => (4 : ℝ)) 0 =
        (4 : ℝ) / Real.sqrt (arrMean (fun _ : Fin 1 => (4 : ℝ)))) := by
  have hm : arrMean (fun _ : Fin 1 => (4 : ℝ)) = 4 := by
    simp [arrMean]
  have h4 : Real.sqrt 4 = 2 := by
    rw [show (4 : ℝ) = 2 ^ 2 by norm_num, Real.sqrt_sq (by norm_num)]
  simp only [err_mean_norm, hm]
  rw [show (4 : ℝ) / 4 = 1 by norm_num, Real.sqrt_one, h4]
  norm_num

/-- C9 amended: for every error array with nonnegative entries and positive
mean, each normalised element equals `(err i / mean err) ** 0.5`, i.e.
`sqrt (err i) / sqrt (mean err)` — the whole quotient is raised to the
0.5 power, not just the mean. -/
theorem err_mean_norm_spec {n : ℕ} (x : Fin n → ℝ) (i : Fin n)
    (hx : 0 ≤ x i) (hm : 0 < arrMean x) :
    err_mean_norm x i = Real.sqrt (x i) / Real.sqrt (arrMean x) := by
  simp only [err_mean_norm]
  exact Real.sqrt_div hx (arrMean x)

/-- Witness for C9 (amended) at the one-element array `[4]`. -/
theorem err_mean_norm_spec_witness :
    err_mean_norm (fun _ : Fin 1 => (4 : ℝ)) 0 =
      Real.sqrt 4 / Real.sqrt (arrMean (fun _ : Fin 1 => (4 : ℝ))) :=
  err_mean_norm_spec (fun _ : Fin 1 => (4 : ℝ)) 0 (by norm_num)
    (by simp [arrMean])

/-! ### C3: the cost function `fitfn` -/

/-- C3: for every parameter tuple and aligned arrays, `fitfn` with an
explicit bias `b` returns
`b * Σ ((KB_pred - KB_obs)/err_KB)^2 / 2 + Σ ((Eps_pred - Eps_obs)/err_Eps)^2 / 2`
where the predictions come from `predfn`; with no bias supplied
(`none`, the Python `LambdaB_bias=None` default) the bias used is
`ptp EpsilonB / ptp LambdaB`, a constant of the observed data; and the
cost is `0` (for any bias) whenever predictions exactly equal
observations. -/
theorem fitfn_spec {n : ℕ} [NeZero n] (Kb3 Kf3 Kb4 Kf4 logRb b : ℝ)
    (Rp rL3 rL4 B_DIC ABO3 ABO4 dBO4 LambdaB EpsilonB : Fin n → ℝ)
    (LambdaB_err EpsilonB_err : Fin n → ℝ) :
    (fitfn Kb3 Kf3 Kb4 Kf4 logRb Rp rL3 rL4 B_DIC ABO3 ABO4 dBO4
        LambdaB EpsilonB LambdaB_err EpsilonB_err (some b) =
      b * (∑ i, (((predfn Kb3 Kf3 Kb4 Kf4 logRb (Rp i) (rL3 i) (rL4 i)
          (B_DIC i) (ABO3 i) (ABO4 i) (dBO4 i)).1 - LambdaB i) /
          LambdaB_err i) ^ 2) / 2 +
      (∑ i, (((predfn Kb3 Kf3 Kb4 Kf4 logRb (Rp i) (rL3 i) (rL4 i)
          (B_DIC i) (ABO3 i) (ABO4 i) (dBO4 i)).2 - EpsilonB i) /
          EpsilonB_err i) ^ 2) / 2) ∧
    fitfn Kb3 Kf3 Kb4 Kf4 logRb Rp rL3 rL4 B_DIC ABO3 ABO4 dBO4
        LambdaB EpsilonB LambdaB_err EpsilonB_err none =
      fitfn Kb3 Kf3 Kb4 Kf4 logRb Rp rL3 rL4 B_DIC ABO3 ABO4 dBO4
        LambdaB EpsilonB LambdaB_err EpsilonB_err
        (some (ptp EpsilonB / ptp LambdaB)) ∧
    ((∀ i, predfn Kb3 Kf3 Kb4 Kf4 logRb (Rp i) (rL3 i) (rL4 i)
        (B_DIC i) (ABO3 i) (ABO4 i) (dBO4 i) = (LambdaB i, EpsilonB i)) →
      ∀ ob : Option ℝ,
        fitfn Kb3 Kf3 Kb4 Kf4 logRb Rp rL3 rL4 B_DIC ABO3 ABO4 dBO4
          LambdaB EpsilonB LambdaB_err EpsilonB_err ob = 0) := by
  refine ⟨?_, ?_, ?_⟩
  · simp only [fitfn, Option.getD_some, div_pow, mul_div_assoc]
  · simp only [fitfn, Option.getD_some, Option.getD_none]
  · intro h ob
    have hz : (∑ i, ((predfn Kb3 Kf3 Kb4 Kf4 logRb (Rp i) (rL3 i) (rL4 i)
          (B_DIC i) (ABO3 i) (ABO4 i) (dBO4 i)).1 - LambdaB i) ^ 2 /
          LambdaB_err i ^ 2) = 0 := by
      refine Finset.sum_eq_zero fun i _ => ?_
      rw [show (predfn Kb3 Kf3 Kb4 Kf4 logRb (Rp i) (rL3 i) (rL4 i)
          (B_DIC i) (ABO3 i) (ABO4 i) (dBO4 i)).1 = LambdaB i from
        congrArg Prod.fst (h i)]
      simp
    have hz2 : (∑ i, ((predfn Kb3 Kf3 Kb4 Kf4 logRb (Rp i) (rL3 i) (rL4 i)
        (B_DIC i) (ABO3 i) (ABO4 i) (dBO4 i)).2 - EpsilonB i) ^ 2 /
        EpsilonB_err i ^ 2) = 0 := by
      refine Finset.sum_eq_zero fun i _ => ?_
      rw [show (predfn Kb3 Kf3 Kb4 Kf4 logRb (Rp i) (rL3 i) (rL4 i)
          (B_DIC i) (ABO3 i) (ABO4 i) (dBO4 i)).2 = EpsilonB i from
        congrArg Prod.snd (h i)]
      simp
    simp only [fitfn, hz, hz2]
    simp

/-- Witness for C3: one sample, parameters and data all concrete; the
zero-cost clause is exercised by observing exactly the model predictions. -/
theorem fitfn_spec_witness :
    fitfn (n := 1) 1 1 1 1 0 (fun _ => 2) (fun _ => 3) (fun _ => 4)
      (fun _ => 5) (fun _ => 6) (fun _ => 7) (fun _ => 8)
      (fun _ => (predfn 1 1 1 1 0 2 3 4 5 6 7 8).1)
      (fun _ => (predfn 1 1 1 1 0 2 3 4 5 6 7 8).2)
      (fun _ => 9) (fun _ => 10) (some 11) = 0 :=
  (fitfn_spec (n := 1) 1 1 1 1 0 11 (fun _ => 2) (fun _ => 3) (fun _ => 4)
      (fun _ => 5) (fun _ => 6) (fun _ => 7) (fun _ => 8)
      (fun _ => (predfn 1 1 1 1 0 2 3 4 5 6 7 8).1)
      (fun _ => (predfn 1 1 1 1 0 2 3 4 5 6 7 8).2)
      (fun _ => 9) (fun _ => 10)).2.2 (fun _ => rfl) (some 11)

/-! ### C4: the exact solver's ratio relation and root positivity -/

/-- C4: for every valid input (`0 < BO4 < BT`, `alpha > 0`, bulk ratio
`d11_2_R11 d11BT SRM > 0`), the pair `(delta_BO4, delta_BO3)` returned by
`sol_B_iso_Rae2018` satisfies `delta_BO3/1000 + 1 = alpha*(delta_BO4/1000 + 1)`
(the underlying ratios satisfy `R_B3 = alpha * R_B4`), and the quadratic
root selected for `R_B4` is positive. -/
theorem sol_B_iso_Rae2018_alpha_relation (pH BO4 BT alpha d11BT SRM : ℝ)
    (hBO4 : 0 < BO4) (hBT : BO4 < BT) (halpha : 0 < alpha)
    (hRT : 0 < d11_2_R11 d11BT SRM) :
    (sol_B_iso_Rae2018 pH BO4 BT alpha d11BT SRM).2 / 1000 + 1 =
      alpha * ((sol_B_iso_Rae2018 pH BO4 BT alpha d11BT SRM).1 / 1000 + 1) ∧
    0 < RB4_Rae2018 pH BO4 BT alpha d11BT SRM := by
  constructor
  · simp only [sol_B_iso_Rae2018, R11_2_d11]
    ring
  · have hH : 0 < Hval_of pH := Real.rpow_pos_of_pos (by norm_num) _
    have hKb : 0 < Kbval_of pH BO4 BT :=
      div_pos (mul_pos hBO4 hH) (by linarith)
    simp only [RB4_Rae2018]
    set R := d11_2_R11 d11BT SRM with hRdef
    set H := Hval_of pH with hHdef
    set Kb := Kbval_of pH BO4 BT with hKbdef
    have hHK : 0 < H + Kb := by linarith
    have hDeq : H^2*R^2 + 2*H^2*R*alpha + H^2*alpha^2 +
        2*H*Kb*R^2*alpha - 2*H*Kb*R*alpha^2 + 8*H*Kb*R*alpha -
        2*H*Kb*R + 2*H*Kb*alpha + Kb^2*R^2*alpha^2 + 2*Kb^2*R*alpha + Kb^2 =
        (H*R + Kb*R*alpha - H*alpha - Kb)^2 + 4*R*alpha*(H + Kb)^2 := by
      ring
    rw [hDeq]
    have h4 : 0 < 4*R*alpha*(H + Kb)^2 :=
      mul_pos (mul_pos (mul_pos (by norm_num) hRT) halpha) (pow_pos hHK 2)
    have hlt : (-(H*R + Kb*R*alpha - H*alpha - Kb))^2 <
        (H*R + Kb*R*alpha - H*alpha - Kb)^2 + 4*R*alpha*(H + Kb)^2 := by
      nlinarith [h4]
    have hsq := Real.lt_sqrt_of_sq_lt hlt
    have hnum : 0 < Real.sqrt ((H*R + Kb*R*alpha - H*alpha - Kb)^2 +
        4*R*alpha*(H + Kb)^2) - H*alpha - Kb + H*R + Kb*R*alpha := by
      linarith
    exact div_pos hnum (mul_pos (mul_pos (by norm_num) halpha) hHK)

/-- Witness for C4 at `(pH, BO4, BT, alpha, d11BT, SRM) = (0, 1, 2, 1, 0, NIST951)`. -/
theorem sol_B_iso_Rae2018_alpha_relation_witness :
    (sol_B_iso_Rae2018 0 1 2 1 0 NIST951).2 / 1000 + 1 =
      1 * ((sol_B_iso_Rae2018 0 1 2 1 0 NIST951).1 / 1000 + 1) ∧
    0 < RB4_Rae2018 0 1 2 1 0 NIST951 :=
  sol_B_iso_Rae2018_alpha_relation 0 1 2 1 0 NIST951 (by norm_num)
    (by norm_num) (by norm_num) (by norm_num [d11_2_R11, NIST951])

/-! ### Non-finite-aware float model

`FVal` models a numpy float: `some x` is a finite value, `none` abstracts
any non-finite value (NaN or ±Inf).  Division by a zero denominator
produces a non-finite value and every operation propagates non-finite
operands, mirroring numpy's silent Inf/NaN arithmetic (no exception is
ever raised: every operation below is a total function). -/

abbrev FVal : Type := Option ℝ

/-- Float addition: finite on finite operands, non-finite otherwise. -/
def fadd : FVal → FVal → FVal
  | some a, some b => some (a + b)
  | _, _ => none

/-- Float subtraction. -/
def fsub : FVal → FVal → FVal
  | some a, some b => some (a - b)
  | _, _ => none

/-- Float multiplication. -/
def fmul : FVal → FVal → FVal
  | some a, some b => some (a * b)
  | _, _ => none

/-- Float division: a zero denominator yields a non-finite value
(Inf or NaN in numpy), never an exception. -/
def fdiv : FVal → FVal → FVal
  | some a, some b => if b = 0 then none else some (a / b)
  | _, _ => none

/-- Float squaring, `x ** 2`. -/
def fsq : FVal → FVal
  | some a => some (a ^ 2)
  | none => none

/-- Float square root, `x ** (1/2)`: NaN on negative input. -/
def fsqrt : FVal → FVal
  | some a => if a < 0 then none else some (Real.sqrt a)
  | none => none

/-- `np.sum` over a float array: non-finite if any element is non-finite. -/
def fsum {n : ℕ} (x : Fin n → FVal) : FVal :=
  (List.ofFn x).foldr fadd (some 0)

theorem fadd_none_left (y : FVal) : fadd none y = none := by
  cases y <;> rfl

theorem fadd_none_right (x : FVal) : fadd x none = none := by
  cases x <;> rfl

theorem fsub_none_left (y : FVal) : fsub none y = none := by
  cases y <;> rfl

theorem fmul_none_right (x : FVal) : fmul x none = none := by
  cases x <;> rfl

theorem fdiv_none_left (y : FVal) : fdiv none y = none := by
  cases y <;> rfl

theorem foldr_fadd_none (l : List FVal) (hmem : none ∈ l) :
    l.foldr fadd (some 0) = none := by
  induction l with
  | nil => simp at hmem
  | cons a l ih =>
    rcases List.mem_cons.mp hmem with h | h
    · rw [← h]
      exact fadd_none_left _
    · rw [List.foldr_cons, ih h]
      exact fadd_none_right _

theorem fsum_eq_none {n : ℕ} (x : Fin n → FVal) (i : Fin n)
    (hi : x i = none) : fsum x = none := by
  refine foldr_fadd_none _ ?_
  rw [List.mem_ofFn]
  exact ⟨i, hi⟩

/-- `rS_calc` (model.py lines 4-10) under the non-finite-aware model. -/
def rS_calcF (Rb Rp Kf rL Kb : FVal) : FVal :=
  let Rf := fadd Rp Rb
  fdiv (fmul (fmul Kf rL) Rf) (fadd (fmul Rb Kb) Rp)

/-- `A11_2_d11` under the non-finite-aware model. -/
def A11_2_d11F (A11 : FVal) (SRM_ratio : ℝ) : FVal :=
  fmul (fsub (fdiv (fdiv A11 (fsub (some 1) A11)) (some SRM_ratio)) (some 1))
    (some 1000)

/-- `d11_2_R11` under the non-finite-aware model. -/
def d11_2_R11F (d11 : FVal) (SRM_ratio : ℝ) : FVal :=
  fmul (fadd (fdiv d11 (some 1000)) (some 1)) (some SRM_ratio)

/-- `R11_2_d11` under the non-finite-aware model. -/
def R11_2_d11F (R11 : FVal) (SRM_ratio : ℝ) : FVal :=
  fmul (fsub (fdiv R11 (some SRM_ratio)) (some 1)) (some 1000)

/-- `predfn` (model.py lines 12-35) under the non-finite-aware model:
parameters and sample data are finite reals, every internal operation
propagates non-finite values. -/
def predfnF (Kb3 Kf3 Kb4 Kf4 logRb Rp rL3 rL4 B_DIC ABO3 ABO4 dBO4 : ℝ) :
    FVal × FVal :=
  let Rb : FVal := some ((10 : ℝ) ^ logRb)
  let rS4 := rS_calcF Rb (some Rp) (some Kf4) (some rL4) (some Kb4)
  let rS3 := rS_calcF Rb (some Rp) (some Kf3) (some rL3) (some Kb3)
  let rSB := fadd rS3 rS4
  let KB := fdiv rSB (some B_DIC)
  let ABcal := fdiv (fadd (fmul (some ABO3) rS3) (fmul (some ABO4) rS4)) rSB
  let DdBcal := fsub (A11_2_d11F ABcal NIST951) (some dBO4)
  (KB, DdBcal)

/-- `fitfn` (model.py lines 37-54) under the non-finite-aware model. -/
def fitfnF {n : ℕ} [NeZero n] (Kb3 Kf3 Kb4 Kf4 logRb : ℝ)
    (Rp rL3 rL4 B_DIC ABO3 ABO4 dBO4 LambdaB EpsilonB : Fin n → ℝ)
    (LambdaB_err EpsilonB_err : Fin n → ℝ) (LambdaB_bias : Option ℝ) :
    FVal :=
  let bias := LambdaB_bias.getD (ptp EpsilonB / ptp LambdaB)
  let pred := fun i => predfnF Kb3 Kf3 Kb4 Kf4 logRb (Rp i) (rL3 i) (rL4 i)
    (B_DIC i) (ABO3 i) (ABO4 i) (dBO4 i)
  let Lam_err := fmul (some bias) (fsum fun i =>
    fdiv (fsq (fsub (pred i).1 (some (LambdaB i))))
      (fsq (some (LambdaB_err i))))
  let Eps_err := fsum fun i =>
    fdiv (fsq (fsub (pred i).2 (some (EpsilonB i))))
      (fsq (some (EpsilonB_err i)))
  fadd (fdiv Lam_err (some 2)) (fdiv Eps_err (some 2))

/-- `sol_B_iso_Rae2018` (helpers.py lines 27-46) under the
non-finite-aware model; local values `t1 ... t11` are the summands of the
discriminant, combined left-associatively as in the source. -/
def sol_B_iso_Rae2018F (pH BO4 BT alpha d11BT SRM_ratio : ℝ) :
    FVal × FVal :=
  let R_BT := d11_2_R11F (some d11BT) SRM_ratio
  let Hval : FVal := some ((10 : ℝ) ^ (-pH))
  let Kbval := fdiv (fmul (some BO4) Hval) (fsub (some BT) (some BO4))
  let al : FVal := some alpha
  let t1 := fmul (fsq Hval) (fsq R_BT)
  let t2 := fmul (fmul (fmul (some 2) (fsq Hval)) R_BT) al
  let t3 := fmul (fsq Hval) (fsq al)
  let t4 := fmul (fmul (fmul (fmul (some 2) Hval) Kbval) (fsq R_BT)) al
  let t5 := fmul (fmul (fmul (fmul (some 2) Hval) Kbval) R_BT) (fsq al)
  let t6 := fmul (fmul (fmul (fmul (some 8) Hval) Kbval) R_BT) al
  let t7 := fmul (fmul (fmul (some 2) Hval) Kbval) R_BT
  let t8 := fmul (fmul (fmul (some 2) Hval) Kbval) al
  let t9 := fmul (fmul (fsq Kbval) (fsq R_BT)) (fsq al)
  let t10 := fmul (fmul (fmul (some 2) (fsq Kbval)) R_BT) al
  let t11 := fsq Kbval
  let disc := fadd (fadd (fadd (fadd (fsub (fadd (fsub (fadd (fadd
    (fadd t1 t2) t3) t4) t5) t6) t7) t8) t9) t10) t11
  let RB4 := fdiv
    (fadd (fadd (fsub (fsub (fsqrt disc) (fmul Hval al)) Kbval)
      (fmul Hval R_BT)) (fmul (fmul Kbval R_BT) al))
    (fmul (fmul (some 2) al) (fadd Hval Kbval))
  let RB3 := fmul RB4 al
  (R11_2_d11F RB4 SRM_ratio, R11_2_d11F RB3 SRM_ratio)

/-! ### C6: degenerate input `total_B = BO4` in the exact solver -/

/-- C6 counterexample: at the concrete degenerate input
`pH = 8, BO4 = total_B = 1/2000, alpha = 1.0272, d11BT = 39.5`
(so the implied `Kb` has a zero denominator), `sol_B_iso_Rae2018`
silently returns non-finite values — the function is total, no domain
error is raised — contradicting the claim that it fails with a domain
error rather than returning NaN/Inf. -/
theorem sol_B_iso_Rae2018_degenerate_cex :
    sol_B_iso_Rae2018F 8 (1/2000) (1/2000) 1.0272 39.5 NIST951 =
      (none, none) := by
  norm_num [sol_B_iso_Rae2018F, d11_2_R11F, R11_2_d11F, fdiv, fadd, fsub,
    fmul, fsq, fsqrt]

/-- C6 amended: `sol_B_iso_Rae2018` performs no check on the degenerate
input `total_B = BO4`: the zero denominator in the implied `Kb` makes both
returned values non-finite (NaN/Inf in numpy), and they are returned
silently — no domain error is raised for any such input. -/
theorem sol_B_iso_Rae2018_degenerate_nonfinite
    (pH BO4 alpha d11BT SRM : ℝ) :
    sol_B_iso_Rae2018F pH BO4 BO4 alpha d11BT SRM = (none, none) := by
  norm_num [sol_B_iso_Rae2018F, d11_2_R11F, R11_2_d11F, fdiv, fadd, fsub,
    fmul, fsq, fsqrt]

/-! ### C7: non-finite propagation through `rS_calc` and `fitfn` -/

/-- C7: whenever `Rb*Kb + Rp = 0`, `rS_calc` returns a non-finite value
(NaN/Inf) without raising (the model function is total); and whenever the
`predfn` predictions underlying a `fitfn` evaluation contain a non-finite
value, `fitfn` returns a non-finite final scalar rather than a masked or
defaulted value. -/
theorem rS_fitfn_nonfinite_propagation :
    (∀ Rb Rp Kf rL Kb : ℝ, Rb * Kb + Rp = 0 →
      rS_calcF (some Rb) (some Rp) (some Kf) (some rL) (some Kb) = none) ∧
    (∀ (n : ℕ) [NeZero n] (Kb3 Kf3 Kb4 Kf4 logRb : ℝ)
      (Rp rL3 rL4 B_DIC ABO3 ABO4 dBO4 LambdaB EpsilonB : Fin n → ℝ)
      (LambdaB_err EpsilonB_err : Fin n → ℝ) (bias : Option ℝ),
      (∃ i, (predfnF Kb3 Kf3 Kb4 Kf4 logRb (Rp i) (rL3 i) (rL4 i)
          (B_DIC i) (ABO3 i) (ABO4 i) (dBO4 i)).1 = none ∨
        (predfnF Kb3 Kf3 Kb4 Kf4 logRb (Rp i) (rL3 i) (rL4 i)
          (B_DIC i) (ABO3 i) (ABO4 i) (dBO4 i)).2 = none) →
      fitfnF Kb3 Kf3 Kb4 Kf4 logRb Rp rL3 rL4 B_DIC ABO3 ABO4 dBO4
        LambdaB EpsilonB LambdaB_err EpsilonB_err bias = none) := by
  constructor
  · intro Rb Rp Kf rL Kb h
    simp only [rS_calcF, fmul, fadd, h]
    simp [fdiv]
  · intro n _ Kb3 Kf3 Kb4 Kf4 logRb Rp rL3 rL4 B_DIC ABO3 ABO4 dBO4
      LambdaB EpsilonB LambdaB_err EpsilonB_err bias ⟨i, hi⟩
    simp only [fitfnF]
    rcases hi with h1 | h2
    · have hS1 : fsum (fun j => fdiv (fsq (fsub
          (predfnF Kb3 Kf3 Kb4 Kf4 logRb (Rp j) (rL3 j) (rL4 j)
            (B_DIC j) (ABO3 j) (ABO4 j) (dBO4 j)).1 (some (LambdaB j))))
          (fsq (some (LambdaB_err j)))) = none := by
        refine fsum_eq_none _ i ?_
        rw [h1]
        rfl
      rw [hS1, fmul_none_right, fdiv_none_left, fadd_none_left]
    · have hS2 : fsum (fun j => fdiv (fsq (fsub
          (predfnF Kb3 Kf3 Kb4 Kf4 logRb (Rp j) (rL3 j) (rL4 j)
            (B_DIC j) (ABO3 j) (ABO4 j) (dBO4 j)).2 (some (EpsilonB j))))
          (fsq (some (EpsilonB_err j)))) = none := by
        refine fsum_eq_none _ i ?_
        rw [h2]
        rfl
      rw [hS2, fdiv_none_left, fadd_none_right]

/-- Witness for C7: `rS_calc` at `(Rb, Rp, Kf, rL, Kb) = (1, 1, 1, 1, -1)`
(denominator `1*(-1) + 1 = 0`), and a one-sample `fitfn` evaluation whose
prediction is non-finite because `Kb4 = -1` drives the same denominator
to zero. -/
theorem rS_fitfn_nonfinite_propagation_witness :
    rS_calcF (some 1) (some 1) (some 1) (some 1) (some (-1)) = none ∧
    fitfnF (n := 1) 1 1 (-1) 1 0 (fun _ => 1) (fun _ => 2) (fun _ => 3)
      (fun _ => 4) (fun _ => 5) (fun _ => 6) (fun _ => 7) (fun _ => 8)
      (fun _ => 9) (fun _ => 10) (fun _ => 11) (some 12) = none := by
  constructor
  · exact rS_fitfn_nonfinite_propagation.1 1 1 1 1 (-1) (by norm_num)
  · refine rS_fitfn_nonfinite_propagation.2 1 1 1 (-1) 1 0 (fun _ => 1)
      (fun _ => 2) (fun _ => 3) (fun _ => 4) (fun _ => 5) (fun _ => 6)
      (fun _ => 7) (fun _ => 8) (fun _ => 9) (fun _ => 10) (fun _ => 11)
      (some 12) ⟨0, Or.inl ?_⟩
    norm_num [predfnF, rS_calcF, fdiv, fadd, fsub, fmul, Real.rpow_zero]

end InorgB
